import Mathlib

/-!
Verification of the Wallet Connection & Permission Reconciliation Engine
(oreid-js, `OreId` class).  Each definition below is a shallow embedding of the
correspondingly named function of the source (the consolidated TypeScript
version; line numbers refer to that file).  JavaScript `null`/`undefined`
values of string-typed data are modelled as `Option String` (or the empty
string where the source itself conflates the two through truthiness tests),
thrown exceptions as `Except`, and network / wallet collaborators as explicit
oracle parameters recording their outcomes.
-/

namespace OreIdModel

/-- Truthiness test applied by the source to optional strings:
`null`/`undefined` and `""` are falsy, everything else truthy. -/
def jsStrFalsy : Option String → Bool
  | none => true
  | some s => s == ""

/-! ## Permission Reconciler (`addWalletPermissionstoOreIdAccount`, lines 1025-1077) -/

/-- One entry of the `walletPermissions` array handed to
`addWalletPermissionstoOreIdAccount` — the shape produced by
`updatePermissionsOnLogin` (`{ name: permission, publicKey }`, parent absent)
and by `discoverCredentialsInWallet` (`{ account, publicKey, name, parent: null }`). -/
structure WalletPermission where
  name : String
  publicKey : String
  parent : Option String
deriving DecidableEq

/-- One permission record of the identity-service user record
(`theUser.permissions`), restricted to the fields the reconciler reads. -/
structure UserPermission where
  chainAccount : String
  chainNetwork : String
  permission : String
deriving DecidableEq

/-- One add-permission request submitted to the identity service: the argument
tuple of `this.addPermission(oreAccount, chainAccount, chainNetwork, publicKey,
parentPermission, permission, provider)`. -/
structure AddPermissionCall where
  oreAccount : String
  chainAccount : String
  chainNetwork : String
  publicKey : String
  parentPermission : String
  permission : String
  provider : String
deriving DecidableEq

/-- Parent-permission computation inside `addWalletPermissionstoOreIdAccount`
(lines 1040-1050): `let parentPermission = p.parent; if (!parentPermission) {
parentPermission = 'active'; if (permission === 'owner') { parentPermission = '' }
else if (permission === 'active') { parentPermission = 'owner' } }`. -/
def computeParentPermission (p : WalletPermission) : String :=
  if jsStrFalsy p.parent then
    if p.name == "owner" then ""
    else if p.name == "active" then "owner"
    else "active"
  else p.parent.getD ""

/-- The `skipThisPermission` test (lines 1052-1056):
`theUser.permissions.some(up => (up.chainAccount === chainAccount &&
up.chainNetwork === chainNetwork && up.permission === permission) ||
permission === 'owner')`.  Note that the `permission === 'owner'` disjunct sits
inside the `.some` callback, so it is evaluated once per existing record. -/
def skipThisPermission (userPermissions : List UserPermission)
    (chainAccount chainNetwork permission : String) : Bool :=
  userPermissions.any fun up =>
    (up.chainAccount == chainAccount && up.chainNetwork == chainNetwork
      && up.permission == permission) || permission == "owner"

/-- Embedding of `addWalletPermissionstoOreIdAccount` (lines 1025-1077),
returning the list of add-permission requests it submits.  `userPermissions` is
the permission list of the user record fetched by `getUser(oreAccount, true)` at
the top of the function; the early return covers the
`isNullOrEmpty(oreAccount) || isNullOrEmpty(walletPermissions) ||
isNullOrEmpty(chainNetwork)` guard. -/
def addWalletPermissionstoOreIdAccount (userPermissions : List UserPermission)
    (chainAccount : String) (chainNetwork : String)
    (walletPermissions : List WalletPermission)
    (oreAccount : String) (provider : String) : List AddPermissionCall :=
  if oreAccount == "" || walletPermissions.isEmpty || chainNetwork == "" then []
  else
    walletPermissions.filterMap fun p =>
      let permission := p.name
      let parentPermission := computeParentPermission p
      if skipThisPermission userPermissions chainAccount chainNetwork permission then
        none
      else
        some { oreAccount := oreAccount, chainAccount := chainAccount,
               chainNetwork := chainNetwork, publicKey := p.publicKey,
               parentPermission := parentPermission, permission := permission,
               provider := provider }

/-- C2: refuted as stated — the reconciler does submit an add-permission request
with permission name "owner" when the user record's permission list is empty,
because the `permission === 'owner'` guard lives inside `.some(...)` over
`theUser.permissions` and `.some` over an empty array is always false.  This
contradicts the source's own comment ("don't add 'owner' permission and skip
ones that are already stored in user's account"), so the code, not the claim,
is wrong. -/
theorem owner_permission_submitted_on_empty_record :
    addWalletPermissionstoOreIdAccount [] "acct1" "eos_main"
      [{ name := "owner", publicKey := "PUB1", parent := none }] "idacct" "scatter"
      = [{ oreAccount := "idacct", chainAccount := "acct1",
           chainNetwork := "eos_main", publicKey := "PUB1",
           parentPermission := "", permission := "owner",
           provider := "scatter" }] := by
  decide

/-- C3: parent-permission inference is a pure function of the candidate: a
candidate already carrying a (nonempty) parent permission keeps it unchanged,
and otherwise the inferred parent is "" for "owner", "owner" for "active", and
"active" for every other permission name. -/
theorem parentPermission_inference_pure :
    (∀ (p : WalletPermission) (s : String), p.parent = some s → s ≠ "" →
      computeParentPermission p = s)
    ∧ (∀ name pk, computeParentPermission { name := name, publicKey := pk, parent := none }
        = if name = "owner" then "" else if name = "active" then "owner" else "active") := by
  constructor
  · intro p s hp hs
    simp [computeParentPermission, jsStrFalsy, hp, hs]
  · intro name pk
    by_cases howner : name = "owner"
    · simp [computeParentPermission, jsStrFalsy, howner]
    · by_cases hactive : name = "active"
      · simp [computeParentPermission, jsStrFalsy, hactive, howner]
      · simp [computeParentPermission, jsStrFalsy, hactive, howner]

/-- Witness for C3 at concrete inputs: a carried parent "owner" is kept. -/
theorem parentPermission_inference_pure_witness :
    computeParentPermission { name := "custom", publicKey := "PUB1", parent := some "owner" }
      = "owner" :=
  parentPermission_inference_pure.1
    { name := "custom", publicKey := "PUB1", parent := some "owner" } "owner"
    rfl (by decide)

/-- C4: permission reconciliation is idempotent — whenever the user record
already contains, for every candidate, a record matching
`(chainAccount, chainNetwork, permissionName)`, the reconciler submits zero
add-permission requests (every candidate is skipped as already present). -/
theorem reconcile_idempotent (userPermissions : List UserPermission)
    (chainAccount chainNetwork : String) (walletPermissions : List WalletPermission)
    (oreAccount provider : String)
    (h : ∀ p ∈ walletPermissions, ∃ up ∈ userPermissions,
      up.chainAccount = chainAccount ∧ up.chainNetwork = chainNetwork
        ∧ up.permission = p.name) :
    addWalletPermissionstoOreIdAccount userPermissions chainAccount chainNetwork
      walletPermissions oreAccount provider = [] := by
  unfold addWalletPermissionstoOreIdAccount
  split
  · rfl
  · rw [List.filterMap_eq_nil_iff]
    intro p hp
    obtain ⟨up, hup, h1, h2, h3⟩ := h p hp
    have hskip : skipThisPermission userPermissions chainAccount chainNetwork p.name = true := by
      unfold skipThisPermission
      rw [List.any_eq_true]
      refine ⟨up, hup, ?_⟩
      simp [h1, h2, h3]
    simp only [hskip, if_true]

/-- Witness for C4 at a concrete input: a candidate whose triple is already
recorded produces no submission. -/
theorem reconcile_idempotent_witness :
    addWalletPermissionstoOreIdAccount
      [{ chainAccount := "acct1", chainNetwork := "eos_main", permission := "active" }]
      "acct1" "eos_main"
      [{ name := "active", publicKey := "PUB1", parent := none }]
      "idacct" "scatter" = [] :=
  reconcile_idempotent _ _ _ _ _ _ (by decide)

/-! ## Login Reconciliation Loop (`doTransitProviderLogin`, lines 757-795) -/

/-- One `{ account, authorization }` entry of a discovery result. -/
structure DiscoverAccountEntry where
  account : String
  authorization : String
deriving DecidableEq

/-- One `{ index, key, accounts }` entry of `discoveryData.keyToAccountMap`. -/
structure KeyToAccountEntry where
  index : Nat
  key : String
  accounts : List DiscoverAccountEntry
deriving DecidableEq

/-- The raw discovery result returned by a transit wallet's `discover`. -/
structure DiscoveryData where
  keyToAccountMap : List KeyToAccountEntry
deriving DecidableEq

/-- The `{ index, key, authorization }` record returned by
`findAccountInDiscoverData`. -/
structure FoundAccountData where
  index : Nat
  key : String
  authorization : String
deriving DecidableEq

/-- Embedding of `findAccountInDiscoverData` (lines 712-740): find the first
key whose account list mentions `chainAccount`; authorization is "active" when
present among that key's accounts, otherwise the first listed account's
authorization (or the initial "active" when the list is empty). -/
def findAccountInDiscoverData (discoveryData : DiscoveryData)
    (chainAccount : String) : Option FoundAccountData :=
  match discoveryData.keyToAccountMap.find? (fun data =>
      (data.accounts.find? (fun acct => acct.account == chainAccount)).isSome) with
  | none => none
  | some result =>
    let authorization :=
      match result.accounts.find? (fun acct => acct.authorization == "active") with
      | some _ => "active"
      | none =>
        match result.accounts with
        | first :: _ => first.authorization
        | [] => "active"
    some { index := result.index, key := result.key, authorization := authorization }

/-- Behaviour of one transit wallet across the calls the reconciliation loop
makes: `discoveryData` is what its `discover` returns, and `authAfterLogin k`
is `transitWallet.auth.accountName` observed after the k-th completed `login`
call (the wallet, not the hint passed to `login`, decides which account becomes
active — that is the very problem the loop works around). -/
structure TransitWalletModel where
  discoveryData : DiscoveryData
  authAfterLogin : Nat → String

/-- Embedding of `doTransitProviderLogin` (lines 757-795).  `needsDiscover` is
`needsDiscoverToLogin(provider)`; `loginCount` counts the `transitWallet.login`
calls already performed before entry.  The result pairs the total number of
login calls performed with the outcome: the wallet's active account name on
normal return, or the thrown error message (the ledger branch throws when
`chainAccount` is absent from the discovery result, before calling login).
The source logs in first and only then tests `retryCount > 2`; on a mismatch
with `retryCount <= 2` it logs out and recurses with `retryCount + 1`. -/
def doTransitProviderLogin (w : TransitWalletModel) (needsDiscover : Bool)
    (chainAccount : String) (retryCount : Nat) (loginCount : Nat) :
    Nat × Except String String :=
  if needsDiscover && (findAccountInDiscoverData w.discoveryData chainAccount).isNone then
    (loginCount, Except.error ("Account " ++ chainAccount ++ " not found in wallet"))
  else
    let count := loginCount + 1
    let transitAccountName := w.authAfterLogin count
    if h : retryCount > 2 then
      (count, Except.ok transitAccountName)
    else if chainAccount != "" && transitAccountName != chainAccount then
      doTransitProviderLogin w needsDiscover chainAccount (retryCount + 1) count
    else
      (count, Except.ok transitAccountName)
termination_by 3 - retryCount
decreasing_by
  simp_wf
  omega

/-- Unfolding helper: at `retryCount = 3` the non-ledger path performs exactly
one more login and returns it, whatever the active account is. -/
theorem doTransitProviderLogin_at_three (w : TransitWalletModel)
    (chainAccount : String) (c : Nat) :
    doTransitProviderLogin w false chainAccount 3 c
      = (c + 1, Except.ok (w.authAfterLogin (c + 1))) := by
  unfold doTransitProviderLogin
  simp

/-- Unfolding helper: with `retryCount ≤ 2` and a mismatching login result, the
loop logs out and recurses with the counters advanced. -/
theorem doTransitProviderLogin_retry_step (w : TransitWalletModel)
    (chainAccount : String) (r c : Nat) (hr : r ≤ 2)
    (hca : chainAccount ≠ "") (hmm : w.authAfterLogin (c + 1) ≠ chainAccount) :
    doTransitProviderLogin w false chainAccount r c
      = doTransitProviderLogin w false chainAccount (r + 1) (c + 1) := by
  rw [doTransitProviderLogin]
  have hr3 : ¬ r > 2 := by omega
  simp only [Bool.false_and, Bool.false_eq_true, if_false, hr3, dite_false]
  have hca2 : (chainAccount != "") = true := by
    simpa [bne_iff_ne] using hca
  have hmm2 : (w.authAfterLogin (c + 1) != chainAccount) = true := by
    simpa [bne_iff_ne] using hmm
  simp [hca2, hmm2]

/-- Shared evaluation: against a wallet that persistently authenticates an
account different from the (nonempty) requested one on the plain-login path,
a fresh call performs exactly 4 login calls and then returns normally with the
wallet's settled account. -/
theorem doTransitProviderLogin_persistent_mismatch (w : TransitWalletModel)
    (chainAccount : String) (hca : chainAccount ≠ "")
    (hmm : ∀ k, w.authAfterLogin k ≠ chainAccount) :
    doTransitProviderLogin w false chainAccount 0 0
      = (4, Except.ok (w.authAfterLogin 4)) := by
  rw [doTransitProviderLogin_retry_step w chainAccount 0 0 (by omega) hca (hmm 1),
      doTransitProviderLogin_retry_step w chainAccount 1 1 (by omega) hca (hmm 2),
      doTransitProviderLogin_retry_step w chainAccount 2 2 (by omega) hca (hmm 3),
      doTransitProviderLogin_at_three]

/-- C1: refuted as stated — a wallet that persistently authenticates
"wrongacct" while "rightacct" is requested receives 4 login calls from a fresh
reconciliation run (the source logs in first and only afterwards tests
`retryCount > 2`, so logins happen at retry counts 0, 1, 2 and 3), exceeding
the claimed cap of 3. -/
theorem loginAttempts_reach_four :
    (doTransitProviderLogin
        { discoveryData := { keyToAccountMap := [] },
          authAfterLogin := fun _ => "wrongacct" }
        false "rightacct" 0 0).1 = 4
    ∧ ¬ (doTransitProviderLogin
        { discoveryData := { keyToAccountMap := [] },
          authAfterLogin := fun _ => "wrongacct" }
        false "rightacct" 0 0).1 ≤ 3 := by
  have h := doTransitProviderLogin_persistent_mismatch
    { discoveryData := { keyToAccountMap := [] },
      authAfterLogin := fun _ => "wrongacct" }
    "rightacct" (by decide) (by intro k; show "wrongacct" ≠ "rightacct"; decide)
  rw [h]
  exact ⟨rfl, by omega⟩

/-- C1 (amended): the Login Reconciliation Loop never performs more than 4
login attempts from a fresh call (the initial attempt plus at most 3 retries);
in general, a call entered with retry state `r` and `c` prior login calls
performs at most `max 1 (4 - r)` further login calls, however persistently the
wallet returns a mismatched account. -/
theorem loginAttempts_bounded_by_four :
    (∀ (w : TransitWalletModel) (needsDiscover : Bool) (chainAccount : String) (r c : Nat),
      (doTransitProviderLogin w needsDiscover chainAccount r c).1 ≤ c + max 1 (4 - r))
    ∧ ∀ (w : TransitWalletModel) (needsDiscover : Bool) (chainAccount : String),
      (doTransitProviderLogin w needsDiscover chainAccount 0 0).1 ≤ 4 := by
  have main : ∀ (n : Nat) (w : TransitWalletModel) (needsDiscover : Bool)
      (chainAccount : String) (r c : Nat), 3 - r ≤ n →
      (doTransitProviderLogin w needsDiscover chainAccount r c).1 ≤ c + max 1 (4 - r) := by
    intro n
    induction n with
    | zero =>
      intro w needsDiscover chainAccount r c hr
      have hr3 : r ≥ 3 := by omega
      rw [doTransitProviderLogin]
      split
      · simp only
        omega
      · have : r > 2 := by omega
        simp only [this, dif_pos]
        omega
    | succ m ih =>
      intro w needsDiscover chainAccount r c hr
      rw [doTransitProviderLogin]
      split
      · simp only
        omega
      · by_cases h3 : r > 2
        · simp only [h3, dif_pos]
          omega
        · simp only [h3, dif_neg, dite_false]
          split
          · have step := ih w needsDiscover chainAccount (r + 1) (c + 1) (by omega)
            refine le_trans step ?_
            omega
          · omega
  refine ⟨fun w nd ca r c => main (3 - r) w nd ca r c le_rfl, fun w nd ca => ?_⟩
  have := main 3 w nd ca 0 0 (by omega)
  simpa using this

/-- C8: when the wallet persistently returns a mismatched account, the loop
exhausts its retry cap and returns normally — no error is thrown — leaving
whatever account the wallet settled on (its account after the last login call)
as the active account. -/
theorem reconcileLogin_mismatch_returns_normally (w : TransitWalletModel)
    (chainAccount : String) (hca : chainAccount ≠ "")
    (hmm : ∀ k, w.authAfterLogin k ≠ chainAccount) :
    doTransitProviderLogin w false chainAccount 0 0
      = (4, Except.ok (w.authAfterLogin 4)) :=
  doTransitProviderLogin_persistent_mismatch w chainAccount hca hmm

/-- Witness for C8 at a concrete input: the wallet keeps answering "wrongacct"
while "rightacct" was requested; reconciliation ends normally with "wrongacct"
active. -/
theorem reconcileLogin_mismatch_returns_normally_witness :
    doTransitProviderLogin
      { discoveryData := { keyToAccountMap := [] },
        authAfterLogin := fun _ => "wrongacct" }
      false "rightacct" 0 0 = (4, Except.ok "wrongacct") :=
  reconcileLogin_mismatch_returns_normally
    { discoveryData := { keyToAccountMap := [] },
      authAfterLogin := fun _ => "wrongacct" }
    "rightacct" (by decide) (by intro k; show "wrongacct" ≠ "rightacct"; decide)

/-! ## Provider Classifier (`assertNoDuplicateProviders`, lines 88-105, and the
constructor's validation sequence, lines 64-73 / `validateOptions`, lines 1093-1113) -/

/-- Lowercasing of a string as a character list (JS `toLowerCase` on the
ASCII provider identifiers involved here). -/
def lowerChars (s : String) : List Char := s.data.map Char.toLower

/-- The JS test `transitProvider.toLowerCase().includes(ualProvider.name.toLowerCase())`:
case-insensitive substring containment of `u` in `t`. -/
def containsLowercase (t u : String) : Bool :=
  decide (lowerChars u <:+: lowerChars t)

/-- The `duplicates` list computed by `assertNoDuplicateProviders` (lines 91-98):
`transitProviderIds` are the ids obtained by instantiating each installed
eos-transit wallet-provider factory with a null configuration
(`makeWalletProvider(null).id`); a transit id is kept when some installed UAL
provider's name is a case-insensitive substring of it. -/
def duplicateProviderIds (transitProviderIds ualProviderNames : List String) :
    List String :=
  transitProviderIds.filter fun transitProvider =>
    ualProviderNames.any fun ualName => containsLowercase transitProvider ualName

/-- Embedding of `assertNoDuplicateProviders` (lines 88-105): when both provider
lists are non-empty and the duplicates list is non-empty, it throws the
duplicate-provider error carrying the offending transit identifiers. -/
def assertNoDuplicateProviders (transitProviderIds ualProviderNames : List String) :
    Except (List String) Unit :=
  if !transitProviderIds.isEmpty && !ualProviderNames.isEmpty then
    let duplicates := duplicateProviderIds transitProviderIds ualProviderNames
    if !duplicates.isEmpty then Except.error duplicates else Except.ok ()
  else Except.ok ()

/-- The startup options the constructor validates (lines 64-73): the three
required string parameters, and the two installed provider families reduced to
the data the duplicate check reads. -/
structure OreIdOptionsModel where
  appId : String
  apiKey : String
  oreIdUrl : String
  serviceKey : Option String
  transitProviderIds : List String
  ualProviderNames : List String

/-- Embedding of `validateOptions` (lines 1093-1113): an error message is
accumulated for each missing required parameter and thrown when non-empty. -/
def validateOptions (o : OreIdOptionsModel) : Except String Unit :=
  let errorMessage :=
    (if o.appId == "" then " --> Missing required parameter - appId." else "")
    ++ (if o.apiKey == "" then " --> Missing required parameter - apiKey." else "")
    ++ (if o.oreIdUrl == "" then " --> Missing required parameter - oreIdUrl." else "")
  if errorMessage != "" then
    Except.error ("Options are missing or invalid." ++ errorMessage)
  else Except.ok ()

/-- Construction-time error signal: either the options-validation message or the
duplicate-provider error with the offending transit identifiers. -/
inductive ConstructionError
  | invalidOptions (message : String)
  | duplicateProviders (ids : List String)
deriving DecidableEq

/-- Embedding of the `OreId` constructor's checks (lines 64-73): it runs
`validateOptions(options)` and then `assertNoDuplicateProviders()`, performing
no wallet-connection attempt whatsoever (no wallet object is created or
contacted during construction), so a failing check aborts construction before
any connection attempt. -/
def constructOreId (o : OreIdOptionsModel) : Except ConstructionError Unit :=
  match validateOptions o with
  | Except.error e => Except.error (ConstructionError.invalidOptions e)
  | Except.ok _ =>
    match assertNoDuplicateProviders o.transitProviderIds o.ualProviderNames with
    | Except.error dups => Except.error (ConstructionError.duplicateProviders dups)
    | Except.ok _ => Except.ok ()

/-- C5: construction with valid base options fails with the duplicate-provider
error as soon as some installed Transit provider's identifier case-insensitively
contains some installed UAL provider's name, and the error carries exactly the
offending transit identifiers; the check involves no connection attempt. -/
theorem duplicate_providers_fail_construction (o : OreIdOptionsModel)
    (hvalid : validateOptions o = Except.ok ())
    (t : String) (ht : t ∈ o.transitProviderIds)
    (u : String) (hu : u ∈ o.ualProviderNames)
    (hdup : containsLowercase t u = true) :
    constructOreId o = Except.error (ConstructionError.duplicateProviders
      (duplicateProviderIds o.transitProviderIds o.ualProviderNames))
    ∧ t ∈ duplicateProviderIds o.transitProviderIds o.ualProviderNames := by
  have htmem : t ∈ duplicateProviderIds o.transitProviderIds o.ualProviderNames := by
    unfold duplicateProviderIds
    rw [List.mem_filter]
    refine ⟨ht, ?_⟩
    rw [List.any_eq_true]
    exact ⟨u, hu, hdup⟩
  have htrans : o.transitProviderIds.isEmpty = false := by
    rcases hcase : o.transitProviderIds with _ | ⟨a, l⟩
    · rw [hcase] at ht
      cases ht
    · rfl
  have hual : o.ualProviderNames.isEmpty = false := by
    rcases hcase : o.ualProviderNames with _ | ⟨a, l⟩
    · rw [hcase] at hu
      cases hu
    · rfl
  have hdups : (duplicateProviderIds o.transitProviderIds o.ualProviderNames).isEmpty = false := by
    rcases hcase : duplicateProviderIds o.transitProviderIds o.ualProviderNames with _ | ⟨a, l⟩
    · rw [hcase] at htmem
      cases htmem
    · rfl
  refine ⟨?_, htmem⟩
  unfold constructOreId
  rw [hvalid]
  unfold assertNoDuplicateProviders
  simp only [htrans, hual, hdups, Bool.not_false, Bool.and_self, if_true]

/-- Witness for C5 at the concrete input of the spec's scenario: a Transit
provider with identifier "scatter" together with a UAL provider named "Scatter"
makes construction fail with the duplicate-provider error listing "scatter". -/
theorem duplicate_providers_fail_construction_witness :
    constructOreId
      { appId := "app1", apiKey := "key1", oreIdUrl := "https://service.example",
        serviceKey := none, transitProviderIds := ["scatter"],
        ualProviderNames := ["Scatter"] }
      = Except.error (ConstructionError.duplicateProviders ["scatter"]) := by
  have h := duplicate_providers_fail_construction
    { appId := "app1", apiKey := "key1", oreIdUrl := "https://service.example",
      serviceKey := none, transitProviderIds := ["scatter"],
      ualProviderNames := ["Scatter"] }
    rfl "scatter" (by decide) "Scatter" (by decide) (by decide)
  rw [h.1]
  rfl

/-! ## Discovery Engine (`discover`, lines 255-276) -/

/-- Static per-provider metadata of the transit family
(`transitProviderAttributesData[provider]`). -/
structure TransitProviderAttributes where
  providerId : String
  requiresLogin : Bool
  supportsDiscovery : Bool
  requiresLogoutLoginToDiscover : Bool
  defaultDiscoveryPathIndexList : Option (List Nat)
  helpText : String
deriving DecidableEq

/-- Collaborator outcomes reached by `discover`: the result of
`setupTransitWallet` (connect plus busy-wait), of the full
`discoverCredentialsInWallet` flow taken on the supports-discovery path, and of
the `logout(); login()` sequence of the requiresLogoutLoginToDiscover
fallback. -/
structure DiscoverEnv where
  setupOutcome : Except String Unit
  credentialsOutcome : Except String (List WalletPermission)
  logoutLoginOutcome : Except String Unit

/-- Embedding of `canDiscover` (lines 287-297): UAL providers never support
discovery; transit providers support it exactly when their attribute record
says `supportsDiscovery === true`. -/
def canDiscover (isUAL isTransit : Bool) (attrs : TransitProviderAttributes) : Bool :=
  if isUAL then false
  else if isTransit then attrs.supportsDiscovery
  else false

/-- Embedding of `requiresLogoutLoginToDiscover` (lines 476-483). -/
def requiresLogoutLoginToDiscover (isTransit : Bool)
    (attrs : TransitProviderAttributes) : Bool :=
  if isTransit then attrs.requiresLogoutLoginToDiscover else false

/-- Embedding of `discover` (lines 255-276).  `attrs?` is
`transitProviderAttributesData[provider]`, whose absence makes
`assertValidProvider` throw.  On the non-discovery path the source either runs
the logout/login refresh (when `requiresLogoutLoginToDiscover`) or only logs
"Discover not working for provider" — in both cases `result` stays `null` and
no UnsupportedOperationError of any kind is raised. -/
def discover (env : DiscoverEnv) (attrs? : Option TransitProviderAttributes)
    (isUAL isTransit : Bool) : Except String (Option (List WalletPermission)) :=
  match attrs? with
  | none => Except.error "Provider is not a valid option"
  | some attrs =>
    if canDiscover isUAL isTransit attrs then
      match env.credentialsOutcome with
      | Except.error e => Except.error e
      | Except.ok perms => Except.ok (some perms)
    else
      match env.setupOutcome with
      | Except.error e => Except.error e
      | Except.ok _ =>
        if requiresLogoutLoginToDiscover isTransit attrs then
          match env.logoutLoginOutcome with
          | Except.error e => Except.error e
          | Except.ok _ => Except.ok none
        else Except.ok none

/-- C6: refuted as stated — for a valid transit provider whose descriptor does
not mark `supportsDiscovery`, `discover` does not fail: with the wallet
connecting normally it returns the initial `null` result with no
UnsupportedOperationError (the source merely logs "Discover not working for
provider" on this path). -/
theorem discover_unsupported_returns_null :
    discover
      { setupOutcome := Except.ok (), credentialsOutcome := Except.ok [],
        logoutLoginOutcome := Except.ok () }
      (some { providerId := "scatter", requiresLogin := true,
              supportsDiscovery := false, requiresLogoutLoginToDiscover := false,
              defaultDiscoveryPathIndexList := none, helpText := "" })
      false true
      = Except.ok none := by
  rfl

/-- C6 (amended): for every valid provider whose descriptor does not mark
`supportsDiscovery = true`, `discover` raises no error of its own: whenever the
wallet setup succeeds and (when the descriptor requires it) the logout/login
refresh succeeds, the call returns `null` normally; no UnsupportedOperationError
exists on this path. -/
theorem discover_unsupported_no_error (env : DiscoverEnv)
    (attrs : TransitProviderAttributes) (isUAL isTransit : Bool)
    (hsup : attrs.supportsDiscovery = false)
    (hsetup : env.setupOutcome = Except.ok ())
    (hll : env.logoutLoginOutcome = Except.ok ()) :
    discover env (some attrs) isUAL isTransit = Except.ok none := by
  have hcan : canDiscover isUAL isTransit attrs = false := by
    unfold canDiscover
    rcases isUAL with _ | _ <;> rcases isTransit with _ | _ <;> simp [hsup]
  unfold discover
  simp only [hcan, Bool.false_eq_true, if_false, hsetup]
  by_cases hreq : requiresLogoutLoginToDiscover isTransit attrs = true
  · rw [if_pos hreq, hll]
  · rw [if_neg hreq]

/-- Witness for C6 (amended) at a concrete input: same provider attributes as
the counterexample, with a requiresLogoutLoginToDiscover provider this time. -/
theorem discover_unsupported_no_error_witness :
    discover
      { setupOutcome := Except.ok (), credentialsOutcome := Except.ok [],
        logoutLoginOutcome := Except.ok () }
      (some { providerId := "lynx", requiresLogin := true,
              supportsDiscovery := false, requiresLogoutLoginToDiscover := true,
              defaultDiscoveryPathIndexList := none, helpText := "" })
      false true
      = Except.ok none :=
  discover_unsupported_no_error _ _ false true rfl rfl rfl

/-! ## Sign Routing Decision (`sign`, lines 231-251; `custodialSignWithOreId`,
lines 439-450; `checkIfTrxAutoSignable`, lines 318-342; `signWithOreId`,
lines 415-437) -/

/-- Result variants of a sign call, per routing path taken: `null` for a
not-implemented provider, an api-signed transaction (custodial or auto-sign),
an externally wallet-signed transaction, or the hosted-redirect sign URL. -/
inductive SignOutcome
  | nullResult
  | custodialSigned (signedTransaction : String)
  | autoSigned (signedTransaction : String)
  | externalWalletSigned (signedTransaction : String)
  | hostedUrl (signUrl : String)
deriving DecidableEq

/-- Collaborator outcomes reached by the sign paths: the can-auto-sign API
verdict, the sign-transaction API result (used by both `custodial/sign` and the
auto-sign `transaction/sign`), the hosted sign-URL construction
(`getOreIdSignUrl`, which itself calls the app-token API), and the external
wallet path (`signWithNonOreIdProvider`) with the identity-service endpoints it
happens to hit. -/
structure SignEnv where
  canAutoSignOutcome : Except String Bool
  signTransactionOutcome : Except String String
  signUrlOutcome : Except String String
  externalOutcome : Except String String
  externalEndpointsCalled : List String

/-- Embedding of `custodialSignWithOreId` (lines 439-450), paired with the list
of identity-service endpoints it calls: a missing/empty `serviceKey` throws the
missing-service-credential error before `callSignTransaction` ever runs, so no
endpoint is called on that path. -/
def custodialSignWithOreId (serviceKey : Option String) (env : SignEnv) :
    List String × Except String SignOutcome :=
  if jsStrFalsy serviceKey then
    ([], Except.error
      "Missing serviceKey in oreId config options - required to call api/custodial/new-user.")
  else
    match env.signTransactionOutcome with
    | Except.error e => (["custodial/sign"], Except.error e)
    | Except.ok r => (["custodial/sign"], Except.ok (SignOutcome.custodialSigned r))

/-- Embedding of `checkIfTrxAutoSignable` (lines 318-342), paired with the
endpoints it calls: it throws when no `serviceKey` is configured (before any
network call), and otherwise returns the can-auto-sign API verdict. -/
def checkIfTrxAutoSignable (serviceKey : Option String) (env : SignEnv) :
    List String × Except String Bool :=
  if jsStrFalsy serviceKey then
    ([], Except.error
      "Missing serviceKey in oreId config options - required to call auto-sign api endpoints.")
  else (["transaction/can-auto-sign"], env.canAutoSignOutcome)

/-- Embedding of `signWithOreId` (lines 415-437): the `checkIfTrxAutoSignable`
call sits in a try/catch whose handler does nothing, so any failure leaves
`canAutoSign = false`; auto-signing happens only when the check succeeded with
`true` and the caller did not set `preventAutoSign`; every other case builds the
hosted-redirect sign URL (`getOreIdSignUrl`, which calls the app-token API). -/
def signWithOreId (serviceKey : Option String) (preventAutoSign : Bool)
    (env : SignEnv) : List String × Except String SignOutcome :=
  let check := checkIfTrxAutoSignable serviceKey env
  let canAutoSign := match check.2 with
    | Except.ok b => b
    | Except.error _ => false
  if canAutoSign && !preventAutoSign then
    match env.signTransactionOutcome with
    | Except.error e => (check.1 ++ ["transaction/sign"], Except.error e)
    | Except.ok r => (check.1 ++ ["transaction/sign"], Except.ok (SignOutcome.autoSigned r))
  else
    match env.signUrlOutcome with
    | Except.error e => (check.1 ++ ["app-token"], Except.error e)
    | Except.ok u => (check.1 ++ ["app-token"], Except.ok (SignOutcome.hostedUrl u))

/-- Runtime configuration consulted by the `sign` routing (lines 231-251):
the configured service credential, the `providersNotImplemented` constant, and
the provider classification predicates `isUALProvider` / `isTransitProvider`
(which read the installed-provider lists). -/
structure SignConfig where
  serviceKey : Option String
  providersNotImplemented : List String
  isUALProvider : String → Bool
  isTransitProvider : String → Bool

/-- Embedding of `sign` (lines 231-251): a not-implemented provider returns
`null`; the custodial provider (`isCustodial`, i.e. `provider ===
AuthProvider.Custodial`, the string "custodial") routes to
`custodialSignWithOreId`; a UAL/transit wallet provider without the
`signExternalWithOreId` test flag routes to the external wallet; everything
else routes to `signWithOreId`. -/
def sign (cfg : SignConfig) (provider : String)
    (signExternalWithOreId preventAutoSign : Bool) (env : SignEnv) :
    List String × Except String SignOutcome :=
  if cfg.providersNotImplemented.contains provider then
    ([], Except.ok SignOutcome.nullResult)
  else if provider == "custodial" then
    custodialSignWithOreId cfg.serviceKey env
  else if (cfg.isUALProvider provider || cfg.isTransitProvider provider)
      && !signExternalWithOreId then
    match env.externalOutcome with
    | Except.error e => (env.externalEndpointsCalled, Except.error e)
    | Except.ok r =>
      (env.externalEndpointsCalled, Except.ok (SignOutcome.externalWalletSigned r))
  else
    signWithOreId cfg.serviceKey preventAutoSign env

/-- C7: a sign request naming the custodial provider, made while no service
credential is configured, fails with the missing-service-credential error and
calls zero identity-service endpoints (the error is thrown before
`callSignTransaction` would reach the network). -/
theorem custodial_sign_missing_serviceKey (cfg : SignConfig)
    (signExternalWithOreId preventAutoSign : Bool) (env : SignEnv)
    (hni : cfg.providersNotImplemented.contains "custodial" = false)
    (hsk : jsStrFalsy cfg.serviceKey = true) :
    sign cfg "custodial" signExternalWithOreId preventAutoSign env
      = ([], Except.error
          "Missing serviceKey in oreId config options - required to call api/custodial/new-user.") := by
  unfold sign
  rw [hni]
  simp only [Bool.false_eq_true, if_false, if_pos (by rfl : ("custodial" == "custodial") = true)]
  unfold custodialSignWithOreId
  rw [hsk]
  simp

/-- Witness for C7 at a concrete input: no serviceKey configured, custodial not
in the not-implemented set. -/
theorem custodial_sign_missing_serviceKey_witness :
    sign
      { serviceKey := none, providersNotImplemented := [],
        isUALProvider := fun _ => false, isTransitProvider := fun _ => false }
      "custodial" false false
      { canAutoSignOutcome := Except.ok false,
        signTransactionOutcome := Except.ok "SIGNEDTX",
        signUrlOutcome := Except.ok "https://service.example/sign",
        externalOutcome := Except.ok "SIGNEDTX",
        externalEndpointsCalled := [] }
      = ([], Except.error
          "Missing serviceKey in oreId config options - required to call api/custodial/new-user.") :=
  custodial_sign_missing_serviceKey _ false false _ rfl rfl

/-- C10: every failure of the auto-sign eligibility check — a missing service
credential just as much as an eligibility-API error — is swallowed by
`signWithOreId`: the transaction is treated as not auto-signable and the call
returns the hosted-redirect sign URL (here assuming the URL construction itself
succeeds) instead of propagating the check's error. -/
theorem autosign_check_failure_swallowed (serviceKey : Option String)
    (preventAutoSign : Bool) (env : SignEnv) (e : String) (u : String)
    (hcheck : (checkIfTrxAutoSignable serviceKey env).2 = Except.error e)
    (hurl : env.signUrlOutcome = Except.ok u) :
    (signWithOreId serviceKey preventAutoSign env).2
      = Except.ok (SignOutcome.hostedUrl u) := by
  unfold signWithOreId
  dsimp only
  rw [hcheck, hurl]
  simp

/-- Witness for C10 at a concrete input: no serviceKey is configured, so the
eligibility check throws; sign still returns the hosted sign URL. -/
theorem autosign_check_failure_swallowed_witness :
    (signWithOreId none false
      { canAutoSignOutcome := Except.ok true,
        signTransactionOutcome := Except.ok "SIGNEDTX",
        signUrlOutcome := Except.ok "https://service.example/sign",
        externalOutcome := Except.ok "SIGNEDTX",
        externalEndpointsCalled := [] }).2
      = Except.ok (SignOutcome.hostedUrl "https://service.example/sign") :=
  autosign_check_failure_swallowed none false _ _ "https://service.example/sign" rfl rfl

/-! ## Effect ordering of the Permission Reconciler (lines 1036-1076)

The body of `addWalletPermissionstoOreIdAccount` awaits `getUser(oreAccount,
true)`, then evaluates `await walletPermissions.map(async p => { ...; await
this.addPermission(...) })`, then awaits the final `getUser(oreAccount, true)`.
The operand of that middle `await` is the Array produced by `.map`, not
`Promise.all(...)`: awaiting a non-promise resumes the caller immediately, so
the only sequencing the code imposes is (a) the initial user load comes first,
(b) each candidate's `addPermission` HTTP call is dispatched — the callbacks
run synchronously, in array order, up to their first `await` — before the outer
function resumes and issues the final user load, and (c) each `addPermission`
completion comes after its own dispatch, whenever the network answers.  Nothing
orders the completions relative to the final user load. -/

/-- Observable effects of one `addWalletPermissionstoOreIdAccount` run with its
candidate batch indexed 0..n-1: the initial forced user load, the dispatch and
the completion of the i-th add-permission HTTP call, and the final forced user
load. -/
inductive ReconcileEvent
  | initialUserLoad
  | addPermissionStart (i : Nat)
  | addPermissionComplete (i : Nat)
  | finalUserLoad
deriving DecidableEq

/-- Strict precedence of the (unique) occurrence of `a` over the (unique)
occurrence of `b` in a trace. -/
def eventsBefore (tr : List ReconcileEvent) (a b : ReconcileEvent) : Bool :=
  match tr.indexOf? a, tr.indexOf? b with
  | some i, some j => decide (i < j)
  | _, _ => false

/-- The set of effect orderings `addWalletPermissionstoOreIdAccount` can
produce for a batch of `n` submitted candidates, transcribing the sequencing
constraints listed above: each event occurs exactly once, the initial user load
comes first, every dispatch precedes the final user load and its own
completion, and dispatches happen in array order.  The final user load is
deliberately not constrained to follow the completions, because the source
awaits the Array returned by `.map` rather than `Promise.all` of it. -/
def isReconcileTrace (n : Nat) (tr : List ReconcileEvent) : Bool :=
  tr.head? == some ReconcileEvent.initialUserLoad &&
  tr.count ReconcileEvent.initialUserLoad == 1 &&
  tr.count ReconcileEvent.finalUserLoad == 1 &&
  tr.length == 2 + 2 * n &&
  ((List.range n).all fun i =>
    tr.count (ReconcileEvent.addPermissionStart i) == 1 &&
    tr.count (ReconcileEvent.addPermissionComplete i) == 1 &&
    eventsBefore tr (ReconcileEvent.addPermissionStart i) ReconcileEvent.finalUserLoad &&
    eventsBefore tr (ReconcileEvent.addPermissionStart i)
      (ReconcileEvent.addPermissionComplete i)) &&
  ((List.range n).all fun i => (List.range i).all fun j =>
    eventsBefore tr (ReconcileEvent.addPermissionStart j)
      (ReconcileEvent.addPermissionStart i))

/-- C9: refuted as stated — the code admits an execution in which the final
user-record refresh fires before the batch's single add-permission submission
has completed: the trace below satisfies every ordering constraint the source
imposes, yet its final user load precedes the submission's completion.  The
`await` on the Array returned by `walletPermissions.map(async ...)` (instead of
on `Promise.all(...)`) fails to sequence the refresh after the submissions,
contradicting the evident intent of the trailing comment "reload user to get
updated permissions". -/
theorem final_refresh_not_sequenced_after_submissions :
    isReconcileTrace 1
      [ReconcileEvent.initialUserLoad, ReconcileEvent.addPermissionStart 0,
       ReconcileEvent.finalUserLoad, ReconcileEvent.addPermissionComplete 0] = true
    ∧ eventsBefore
        [ReconcileEvent.initialUserLoad, ReconcileEvent.addPermissionStart 0,
         ReconcileEvent.finalUserLoad, ReconcileEvent.addPermissionComplete 0]
        ReconcileEvent.finalUserLoad (ReconcileEvent.addPermissionComplete 0) = true := by
  decide

end OreIdModel
